import Mathlib

/-!
Shallow embedding of the Shopimage server (Shopify image-optimization add-on)
and proofs about its scan/grade pipeline, image-log status transitions,
mock-data fallback and OAuth callback handling.

The repository contains several revisions of the same route handlers.
We embed the two that the specification's claims refer to:

* namespace `RoutesV1`   — the revision in `src/unnamed/part_001`
  (grade table with an "F" row, heavy threshold 500 KB, fix ratio 0.2,
  scan result restricted to the heavy subset);
* namespace `ShopimageRoutes` — `src/Shopimage/server/routes.ts`
  (grade table capped at "D", per-shop access token, empty-result fallback,
  scan result covering all images);
* namespace `Mem`        — the in-memory storage backend in
  `src/unnamed/part_005` (`MemoryStorage`);
* namespace `Oauth`      — the OAuth handlers in `src/server/shopify.ts`.

JavaScript integers are modelled as `Nat` (all byte counts in the source are
non-negative), nullable fields as `Option`, `Date` timestamps as an abstract
`Nat` clock value supplied by the caller, and JavaScript truthiness of
nullable numbers/strings by explicit `truthy` helpers (0, "" and null are
falsy).  `Math.round(n * 0.2)` on a non-negative integer `n` is embedded as
`(2 * n + 5) / 10` in `Nat`: the rational value `n / 5` never has fractional
part exactly 1/2, so the double-precision evaluation in the source agrees
with the exact half-up rounding for all sizes in the integer range used here.
-/

/-! ## Data model (shared/schema.ts, `src/unnamed/part_006`) -/

/-- A row of the `shops` table / in-memory shop map. -/
structure Shop where
  id : String
  domain : String
  accessToken : Option String
  scope : Option String
  isPro : Nat
  lastScanAt : Option Nat
  createdAt : Nat
deriving Repr, DecidableEq

/-- The insert payload accepted by `createShop` (schema minus id/createdAt). -/
structure InsertShop where
  domain : String
  accessToken : Option String
  scope : Option String
  lastScanAt : Option Nat
deriving Repr, DecidableEq

/-- A row of the `image_logs` table / in-memory image-log map. -/
structure ImageLog where
  id : String
  shopId : String
  shopifyAssetId : String
  imageUrl : String
  imageName : String
  originalSize : Nat
  optimizedSize : Option Nat
  format : String
  status : String
  originalS3Key : Option String
  optimizedAt : Option Nat
  createdAt : Nat
deriving Repr, DecidableEq

/-- An image descriptor as returned by `fetchShopifyProducts` /
`generateMockImages` (the `shopifyProductId` field exists only in the
`ShopimageRoutes` revision; the `RoutesV1` revision always leaves it unset). -/
structure FetchedImage where
  imageUrl : String
  imageName : String
  originalSize : Nat
  format : String
  shopifyAssetId : String
  shopifyProductId : Option String
deriving Repr, DecidableEq

/-- JavaScript truthiness of a nullable number: `null`, `undefined` and `0`
are falsy. -/
def truthyNat : Option Nat → Bool
  | none => false
  | some n => n != 0

/-- JavaScript truthiness of a nullable string: `null`, `undefined` and the
empty string are falsy. -/
def truthyStr : Option String → Bool
  | none => false
  | some s => s != ""

/-- JavaScript `a || b` on nullable strings. -/
def jsOrStr (a b : Option String) : Option String :=
  if truthyStr a then a else b

/-- `Math.round(n * 0.2)` for a non-negative integer `n`
(used by the fix handlers: `optimizedSize = Math.round(originalSize * 0.2)`). -/
def jsRoundFifth (n : Nat) : Nat :=
  (2 * n + 5) / 10

/-! ## Grade functions -/

namespace RoutesV1

/-- `calculateGrade` from `src/unnamed/part_001` lines 149-155
(the revision with an "F" row). -/
def calculateGrade (totalHeavyImages totalSize : Nat) : String :=
  if totalHeavyImages = 0 then "A"
  else if totalHeavyImages ≤ 2 ∧ totalSize < 5 * 1024 * 1024 then "B"
  else if totalHeavyImages ≤ 5 ∧ totalSize < 10 * 1024 * 1024 then "C"
  else if totalHeavyImages ≤ 10 ∧ totalSize < 20 * 1024 * 1024 then "D"
  else "F"

end RoutesV1

namespace ShopimageRoutes

/-- `calculateGrade` from `src/Shopimage/server/routes.ts` lines 118-123:
this revision has no "F" branch and bottoms out at "D". -/
def calculateGrade (totalHeavyImages totalSize : Nat) : String :=
  if totalHeavyImages = 0 then "A"
  else if totalHeavyImages ≤ 2 ∧ totalSize < 5 * 1024 * 1024 then "B"
  else if totalHeavyImages ≤ 5 ∧ totalSize < 10 * 1024 * 1024 then "C"
  else "D"

end ShopimageRoutes

/-- The grade threshold table exactly as the specification words it:
`0 heavy → A; ≤2 heavy and <5MB → B; ≤5 heavy and <10MB → C;
≤10 heavy and <20MB → D; otherwise F`.  (Definition written from the spec's
words, to be compared with the source functions above.) -/
def specGradeTable (h s : Nat) : String :=
  if h = 0 then "A"
  else if h ≤ 2 ∧ s < 5 * 1024 * 1024 then "B"
  else if h ≤ 5 ∧ s < 10 * 1024 * 1024 then "C"
  else if h ≤ 10 ∧ s < 20 * 1024 * 1024 then "D"
  else "F"

/-- Rank of a letter grade, "A" best (0) through "F" worst (4). -/
def gradeRank : String → Nat
  | "A" => 0
  | "B" => 1
  | "C" => 2
  | "D" => 3
  | "F" => 4
  | _ => 5

/-- The part_001 grade function agrees with the spec's threshold table. -/
lemma calculateGrade_v1_eq_table (h s : Nat) :
    RoutesV1.calculateGrade h s = specGradeTable h s := rfl

/-- Monotonicity of the part_001 grade function. -/
lemma gradeRank_v1_mono {h1 s1 h2 s2 : Nat} (hh : h1 ≤ h2) (hs : s1 ≤ s2) :
    gradeRank (RoutesV1.calculateGrade h1 s1) ≤
      gradeRank (RoutesV1.calculateGrade h2 s2) := by
  unfold RoutesV1.calculateGrade
  split_ifs <;> simp only [gradeRank] <;> omega

/-- Monotonicity of the Shopimage grade function (the D-capped revision). -/
lemma gradeRank_shopimage_mono {h1 s1 h2 s2 : Nat} (hh : h1 ≤ h2) (hs : s1 ≤ s2) :
    gradeRank (ShopimageRoutes.calculateGrade h1 s1) ≤
      gradeRank (ShopimageRoutes.calculateGrade h2 s2) := by
  unfold ShopimageRoutes.calculateGrade
  split_ifs <;> simp only [gradeRank] <;> omega

/-- C4: grading is monotonically non-improving.  For any two inputs with
`h1 ≤ h2` and `s1 ≤ s2`, the grade of the larger input is never better
(never of strictly smaller rank) than the grade of the smaller one, under the
ordering A best, then B, C, D, F.  This holds for both grade-function
revisions in the repository. -/
theorem grade_monotone_nonimproving (h1 s1 h2 s2 : Nat)
    (hh : h1 ≤ h2) (hs : s1 ≤ s2) :
    gradeRank (RoutesV1.calculateGrade h1 s1) ≤
      gradeRank (RoutesV1.calculateGrade h2 s2) ∧
    gradeRank (ShopimageRoutes.calculateGrade h1 s1) ≤
      gradeRank (ShopimageRoutes.calculateGrade h2 s2) :=
  ⟨gradeRank_v1_mono hh hs, gradeRank_shopimage_mono hh hs⟩

/-- Witness for C4 at the concrete input (1, 4MiB) ≤ (3, 6MiB). -/
theorem grade_monotone_nonimproving_witness :
    gradeRank (RoutesV1.calculateGrade 1 4194304) ≤
      gradeRank (RoutesV1.calculateGrade 3 6291456) ∧
    gradeRank (ShopimageRoutes.calculateGrade 1 4194304) ≤
      gradeRank (ShopimageRoutes.calculateGrade 3 6291456) :=
  grade_monotone_nonimproving 1 4194304 3 6291456 (by decide) (by decide)

/-- C3 counterexample: at heavy-image count 11 (total heavy bytes 0), the
grade function of the `src/Shopimage/server/routes.ts` revision — one of the
grade functions the claim covers — returns "D", while the claim's threshold
table demands "F".  The claim, as stated for every heavy count and byte
volume, is therefore false for that revision. -/
theorem calculateGrade_shopimage_ne_table :
    ShopimageRoutes.calculateGrade 11 0 = "D" ∧
    specGradeTable 11 0 = "F" ∧
    ShopimageRoutes.calculateGrade 11 0 ≠ specGradeTable 11 0 := by
  refine ⟨rfl, rfl, ?_⟩
  decide

/-! ## In-memory storage (`src/unnamed/part_005`, `MemoryStorage`) -/

namespace Mem

/-- `MemoryStorage.updateImageLogStatus` (part_005 lines 95-112), applied to a
single row.  Note the source clears `optimizedSize`/`optimizedAt` only on the
`"pending"` branch; the `"reverted"` branch leaves them untouched, and the
`"optimized"` branch stores them only when the supplied size is truthy
(non-null and non-zero). -/
def updateImageLogStatus (log : ImageLog) (status : String)
    (optimizedSize : Option Nat) (now : Nat) : ImageLog :=
  let log1 := { log with status := status }
  if status == "optimized" && truthyNat optimizedSize then
    { log1 with optimizedSize := optimizedSize, optimizedAt := some now }
  else if status == "pending" then
    { log1 with optimizedSize := none, optimizedAt := none }
  else log1

/-- The image-log half of the in-memory store: the map contents in insertion
order (JavaScript `Map` iterates in insertion order). -/
structure ImageStore where
  imageLogs : List ImageLog
deriving Repr, DecidableEq

/-- `MemoryStorage.getImageLogById`. -/
def getImageLogById (st : ImageStore) (id : String) : Option ImageLog :=
  st.imageLogs.find? (fun l => l.id == id)

/-- Store-level `updateImageLogStatus`: mutates the row with the given id in
place (the source mutates the object held in the map). -/
def updateImageLogStatusStore (st : ImageStore) (id : String) (status : String)
    (optimizedSize : Option Nat) (now : Nat) : ImageStore :=
  { imageLogs :=
      st.imageLogs.map (fun l =>
        if l.id == id then updateImageLogStatus l status optimizedSize now else l) }

end Mem

/-! ## part_001 route handlers over the in-memory store -/

namespace RoutesV1

/-- The `ImageLog` row inserted by the scan handler for one fetched image
(part_001 lines 258-271 composed with `MemoryStorage.createImageLog`):
status `"pending"`, null `optimizedSize`/`optimizedAt`/`originalS3Key`. -/
def scanCreatedLog (id shopId : String) (f : FetchedImage) (now : Nat) : ImageLog :=
  { id := id
    shopId := shopId
    shopifyAssetId := f.shopifyAssetId
    imageUrl := f.imageUrl
    imageName := f.imageName
    originalSize := f.originalSize
    optimizedSize := none
    format := f.format
    status := "pending"
    originalS3Key := none
    optimizedAt := none
    createdAt := now }

/-- `POST /api/images/:id/fix` (part_001 lines 297-319): 404 on unknown id,
400 if already optimized, otherwise store `Math.round(originalSize * 0.2)` via
`updateImageLogStatus(id, "optimized", optimizedSize)` and answer 200.
Returns the HTTP status together with the resulting store. -/
def fixHandler (st : Mem.ImageStore) (id : String) (now : Nat) :
    Nat × Mem.ImageStore :=
  match Mem.getImageLogById st id with
  | none => (404, st)
  | some imageLog =>
    if imageLog.status == "optimized" then (400, st)
    else
      let optimizedSize := jsRoundFifth imageLog.originalSize
      (200, Mem.updateImageLogStatusStore st id "optimized" (some optimizedSize) now)

/-- `POST /api/images/:id/revert` (part_001 lines 371-391): 404 on unknown id,
400 unless currently optimized, otherwise `updateImageLogStatus(id, "reverted")`
(no optimized-size argument) and answer 200. -/
def revertHandler (st : Mem.ImageStore) (id : String) (now : Nat) :
    Nat × Mem.ImageStore :=
  match Mem.getImageLogById st id with
  | none => (404, st)
  | some imageLog =>
    if imageLog.status != "optimized" then (400, st)
    else (200, Mem.updateImageLogStatusStore st id "reverted" none now)

end RoutesV1

/-! ## C5: fix on optimized / revert on pending return 400 and change nothing -/

/-- C5 (amended): under the part_001 handlers, for every stored `ImageLog`
whose status is `"optimized"`, a fix request for its id returns HTTP 400 and
leaves the whole store (hence the row's `optimizedSize` and every other
field) unchanged; and for every stored `ImageLog` whose status is
`"pending"`, a revert request for its id returns HTTP 400 and leaves the
store unchanged.  The `src/Shopimage/server/routes.ts` fix handler, by
contrast, has no already-optimized guard and re-optimizes instead (see the
counterexample theorem on `ShopimageRoutes.fixHandler`). -/
theorem fix_revert_state_conflicts (st : Mem.ImageStore) (id : String)
    (log : ImageLog) (now : Nat) (hfound : Mem.getImageLogById st id = some log) :
    (log.status = "optimized" → RoutesV1.fixHandler st id now = (400, st)) ∧
    (log.status = "pending" → RoutesV1.revertHandler st id now = (400, st)) := by
  constructor
  · intro hstat
    unfold RoutesV1.fixHandler
    rw [hfound]
    simp [hstat]
  · intro hstat
    unfold RoutesV1.revertHandler
    rw [hfound]
    simp [hstat]

/-! ## C1: the optimized-size/status invariant -/

/-- A sample fetched image used to exercise the fix/revert cycle. -/
def c1Fetched : FetchedImage :=
  { imageUrl := "https://example.test/a.jpg"
    imageName := "a.jpg"
    originalSize := 2000000
    format := "JPG"
    shopifyAssetId := "gid://shopify/ProductImage/1"
    shopifyProductId := none }

/-- Store holding the single row the scan handler would create for
`c1Fetched` (status `"pending"`, null size/timestamp). -/
def c1Store0 : Mem.ImageStore :=
  ⟨[RoutesV1.scanCreatedLog "img_1" "shop_1" c1Fetched 1]⟩

/-- The store after `POST /api/images/img_1/fix` at clock 5. -/
def c1Store1 : Mem.ImageStore := (RoutesV1.fixHandler c1Store0 "img_1" 5).2

/-- The store after a subsequent `POST /api/images/img_1/revert` at clock 6. -/
def c1Store2 : Mem.ImageStore := (RoutesV1.revertHandler c1Store1 "img_1" 6).2

/-- C1 counterexample: starting from a scan-created row with
`originalSize = 2000000`, a fix (HTTP 200, `optimizedSize = 400000`) followed
by a revert (HTTP 200) leaves the row with `status = "reverted"` while
`optimizedSize` is still `400000` and `optimizedAt` still set: the revert
transition does NOT clear the optimized size/timestamp, so
`status == "optimized" ↔ optimizedSize ≠ null ∧ optimizedAt ≠ null` is false
in this reachable state. -/
theorem revert_preserves_optimizedSize_counterexample :
    (RoutesV1.fixHandler c1Store0 "img_1" 5).1 = 200 ∧
    (RoutesV1.revertHandler c1Store1 "img_1" 6).1 = 200 ∧
    (Mem.getImageLogById c1Store2 "img_1").map
        (fun l => (l.status, l.optimizedSize, l.optimizedAt)) =
      some ("reverted", some 400000, some 5) ∧
    ¬ ((("reverted" : String) = "optimized") ↔
        ((some 400000 : Option Nat) ≠ none ∧ (some 5 : Option Nat) ≠ none)) := by
  refine ⟨rfl, rfl, rfl, ?_⟩
  decide

/-- Image-log rows reachable through the part_001 endpoints over the
in-memory backend: a row is created by scan with status `"pending"` and null
optimized fields, and is then mutated by the fix handler's update (guarded by
status ≠ `"optimized"`), the revert handler's update (guarded by status =
`"optimized"`), or a reset to `"pending"` via `updateImageLogStatus`.
The scan base case carries `3 ≤ originalSize`, under which
`Math.round(originalSize * 0.2)` is non-zero (all catalog/API sizes are far
larger). -/
inductive ReachLog : ImageLog → Prop
  | scan (id shopId : String) (f : FetchedImage) (now : Nat)
      (hsize : 3 ≤ f.originalSize) :
      ReachLog (RoutesV1.scanCreatedLog id shopId f now)
  | fix (l : ImageLog) (now : Nat) (h : ReachLog l)
      (hstat : l.status ≠ "optimized") :
      ReachLog (Mem.updateImageLogStatus l "optimized"
        (some (jsRoundFifth l.originalSize)) now)
  | revert (l : ImageLog) (now : Nat) (h : ReachLog l)
      (hstat : l.status = "optimized") :
      ReachLog (Mem.updateImageLogStatus l "reverted" none now)
  | toPending (l : ImageLog) (osize : Option Nat) (now : Nat) (h : ReachLog l) :
      ReachLog (Mem.updateImageLogStatus l "pending" osize now)

/-- Auxiliary invariant carried through `ReachLog` induction. -/
lemma reachLog_inv {l : ImageLog} (h : ReachLog l) :
    3 ≤ l.originalSize ∧
    (l.status = "optimized" → l.optimizedSize ≠ none ∧ l.optimizedAt ≠ none) ∧
    (l.status = "pending" → l.optimizedSize = none ∧ l.optimizedAt = none) ∧
    (l.status = "reverted" → l.optimizedSize ≠ none ∧ l.optimizedAt ≠ none) := by
  induction h with
  | scan id shopId f now hsize =>
    refine ⟨hsize, ?_, ?_, ?_⟩ <;> intro hstat <;>
      simp_all [RoutesV1.scanCreatedLog]
  | fix l now h hstat ih =>
    obtain ⟨hsize, _, _, _⟩ := ih
    have hnz : jsRoundFifth l.originalSize ≠ 0 := by
      unfold jsRoundFifth; omega
    have htr : truthyNat (some (jsRoundFifth l.originalSize)) = true := by
      simp [truthyNat, hnz]
    refine ⟨?_, ?_, ?_, ?_⟩ <;>
      simp [Mem.updateImageLogStatus, htr, hsize]
  | revert l now h hstat ih =>
    obtain ⟨hsize, hopt, _, _⟩ := ih
    obtain ⟨hs, ha⟩ := hopt hstat
    refine ⟨?_, ?_, ?_, ?_⟩ <;>
      simp [Mem.updateImageLogStatus, truthyNat, hsize, hs, ha]
  | toPending l osize now h ih =>
    obtain ⟨hsize, _, _, _⟩ := ih
    have hcond : (("pending" : String) == "optimized" && truthyNat osize) = false := by
      simp
    refine ⟨?_, ?_, ?_, ?_⟩ <;>
      simp [Mem.updateImageLogStatus, hcond, hsize]

/-- C1 (amended): for image-log rows created by scan and mutated only through
the fix/revert endpoint transitions and pending resets, `status = "optimized"`
implies `optimizedSize` and `optimizedAt` are non-null, and
`status = "pending"` implies both are null; but the revert transition to
`"reverted"` preserves (does not clear) both fields, so `status = "reverted"`
also implies both are non-null and the biconditional of the original claim
fails after a revert. -/
theorem imageLog_status_invariant {l : ImageLog} (h : ReachLog l) :
    (l.status = "optimized" → l.optimizedSize ≠ none ∧ l.optimizedAt ≠ none) ∧
    (l.status = "pending" → l.optimizedSize = none ∧ l.optimizedAt = none) ∧
    (l.status = "reverted" → l.optimizedSize ≠ none ∧ l.optimizedAt ≠ none) :=
  (reachLog_inv h).2

/-- Witness for C1 (amended) at a concrete scan-created row. -/
theorem imageLog_status_invariant_witness :
    let l := RoutesV1.scanCreatedLog "img_1" "shop_1" c1Fetched 1
    (l.status = "optimized" → l.optimizedSize ≠ none ∧ l.optimizedAt ≠ none) ∧
    (l.status = "pending" → l.optimizedSize = none ∧ l.optimizedAt = none) ∧
    (l.status = "reverted" → l.optimizedSize ≠ none ∧ l.optimizedAt ≠ none) :=
  imageLog_status_invariant
    (ReachLog.scan "img_1" "shop_1" c1Fetched 1 (by decide))

/-! ## Shopify client and mock catalogs -/

/-- A product image as returned by the Shopify Admin REST products endpoint. -/
structure ShopifyProductImage where
  id : Nat
  product_id : Nat
  src : String
  width : Nat
  height : Nat
deriving Repr, DecidableEq

/-- A product as returned by the Shopify Admin REST products endpoint. -/
structure ShopifyProduct where
  id : Nat
  title : String
  images : List ShopifyProductImage
deriving Repr, DecidableEq

/-- Outcome of the outbound products request: a network error (the `catch`
branch) or an HTTP response with its `ok` flag and decoded body. -/
inductive HttpOutcome (α : Type)
  | networkError
  | response (ok : Bool) (body : α)

/-- Whether `pat` occurs at the head of `cs`. -/
def listStartsWith : List Char → List Char → Bool
  | [], _ => true
  | _ :: _, [] => false
  | p :: ps, c :: cs => p == c && listStartsWith ps cs

/-- Whether `pat` occurs contiguously anywhere in `cs`. -/
def listContainsSeg (pat : List Char) : List Char → Bool
  | [] => listStartsWith pat []
  | c :: cs => listStartsWith pat (c :: cs) || listContainsSeg pat cs

/-- `image.src.toLowerCase().includes(".png")`. -/
def srcIsPng (src : String) : Bool :=
  listContainsSeg ".png".toList src.toLower.toList

/-- `Math.round(n * 0.15)` for a non-negative integer `n`, embedded as exact
half-up rounding of `3 * n / 20` (used for the width×height×density size
estimate; its exact value is not load-bearing for any claim). -/
def jsRoundThreeTwentieths (n : Nat) : Nat :=
  (3 * n + 20 / 2) / 20

/-- `title.substring(0, 30)`. -/
def jsSubstring30 (s : String) : String :=
  String.mk (s.toList.take 30)

/-- The image descriptor built for one Shopify product image (both route
revisions lines `for (const image of product.images) {...}`); the
`ShopimageRoutes` revision additionally records the product id. -/
def fetchedImageOf (withProductId : Bool) (product : ShopifyProduct)
    (image : ShopifyProductImage) : FetchedImage :=
  let format := if srcIsPng image.src then "PNG" else "JPG"
  let w := if image.width = 0 then 800 else image.width
  let h := if image.height = 0 then 800 else image.height
  let estimatedSize := jsRoundThreeTwentieths (w * h * (if srcIsPng image.src then 4 else 3))
  { imageUrl := image.src
    imageName := jsSubstring30 product.title ++ "_" ++ toString image.id ++ "." ++ format.toLower
    originalSize := estimatedSize
    format := format
    shopifyAssetId := "gid://shopify/ProductImage/" ++ toString image.id
    shopifyProductId := if withProductId then some (toString product.id) else none }

/-- All image descriptors of a decoded products payload, in nested loop
order. -/
def fetchedImagesOfProducts (withProductId : Bool)
    (products : List ShopifyProduct) : List FetchedImage :=
  (products.map (fun p => p.images.map (fetchedImageOf withProductId p))).flatten

namespace RoutesV1

/-- The hard-coded `productImages` table of part_001 `generateMockImages`
(name, size, format). -/
def productImagesTable : List (String × Nat × String) :=
  [("product_hero_1.jpg", 2621440, "JPG"),
   ("collection_banner.png", 3145728, "PNG"),
   ("product_detail_2.jpg", 1887436, "JPG"),
   ("lifestyle_shot_3.png", 2359296, "PNG"),
   ("product_zoom_4.jpg", 1572864, "JPG"),
   ("hero_banner.png", 4194304, "PNG"),
   ("category_thumb_5.jpg", 1048576, "JPG"),
   ("product_variant_6.jpg", 943718, "JPG"),
   ("promotional_banner.png", 2097152, "PNG"),
   ("feature_image_7.jpg", 786432, "JPG")]

/-- The hard-coded `placeholderImages` URL table of part_001. -/
def placeholderImages : List String :=
  ["https://images.unsplash.com/photo-1542291026-7eec264c27ff?w=200&h=200&fit=crop",
   "https://images.unsplash.com/photo-1523275335684-37898b6baf30?w=200&h=200&fit=crop",
   "https://images.unsplash.com/photo-1526170375885-4d8ecf77b99f?w=200&h=200&fit=crop",
   "https://images.unsplash.com/photo-1585386959984-a4155224a1ad?w=200&h=200&fit=crop",
   "https://images.unsplash.com/photo-1560343090-f0409e92791a?w=200&h=200&fit=crop",
   "https://images.unsplash.com/photo-1572635196237-14b3f281503f?w=200&h=200&fit=crop",
   "https://images.unsplash.com/photo-1491553895911-0055uj8df7b?w=200&h=200&fit=crop",
   "https://images.unsplash.com/photo-1505740420928-5e560c06d30e?w=200&h=200&fit=crop",
   "https://images.unsplash.com/photo-1583394838336-acd977736f90?w=200&h=200&fit=crop",
   "https://images.unsplash.com/photo-1546868871-7041f2a55e12?w=200&h=200&fit=crop"]

/-- `generateMockImages` from part_001 lines 107-147: a deterministic
10-entry catalog; the domain argument is never used. -/
def generateMockImages (_domain : String) : List FetchedImage :=
  productImagesTable.enum.map fun p =>
    { imageUrl := placeholderImages.getD (p.1 % placeholderImages.length) ""
      imageName := p.2.1
      originalSize := p.2.2.1
      format := p.2.2.2
      shopifyAssetId := "gid://shopify/ProductImage/" ++ toString (1000000 + p.1)
      shopifyProductId := none }

/-- `fetchShopifyProducts` from part_001 lines 39-105: mock catalog when the
process-wide token is absent, on a non-ok response or on a network error
(this revision has no empty-result fallback and no per-shop token). -/
def fetchShopifyProducts (envToken : Option String)
    (net : HttpOutcome (List ShopifyProduct)) (domain : String) : List FetchedImage :=
  if truthyStr envToken = false then generateMockImages domain
  else
    match net with
    | HttpOutcome.networkError => generateMockImages domain
    | HttpOutcome.response ok products =>
      if ok = false then generateMockImages domain
      else fetchedImagesOfProducts false products

end RoutesV1

namespace ShopimageRoutes

/-- The hard-coded mock table of `src/Shopimage/server/routes.ts`
`generateMockImages` (name, size, format, url). -/
def mockProductsTable : List (String × Nat × String × String) :=
  [("premium_watch_hero.jpg", 2850000, "JPG",
    "https://images.unsplash.com/photo-1523275335684-37898b6baf30?w=400&fit=crop"),
   ("wireless_headphones.png", 4200000, "PNG",
    "https://images.unsplash.com/photo-1505740420928-5e560c06d30e?w=400&fit=crop"),
   ("leather_bag_collection.jpg", 1950000, "JPG",
    "https://images.unsplash.com/photo-1585386959984-a4155224a1ad?w=400&fit=crop"),
   ("modern_sneakers_v2.png", 3100000, "PNG",
    "https://images.unsplash.com/photo-1542291026-7eec264c27ff?w=400&fit=crop"),
   ("smart_home_speaker.jpg", 1250000, "JPG",
    "https://images.unsplash.com/photo-1608043152269-423dbba4e7e1?w=400&fit=crop"),
   ("minimalist_desk_lamp.jpg", 850000, "JPG",
    "https://images.unsplash.com/photo-1507473885765-e6ed057f782c?w=400&fit=crop")]

/-- `generateMockImages` from `src/Shopimage/server/routes.ts` lines 93-116:
a deterministic 6-entry catalog; the domain argument is never used. -/
def generateMockImages (_domain : String) : List FetchedImage :=
  mockProductsTable.enum.map fun p =>
    { imageUrl := p.2.2.2.2
      imageName := p.2.1
      originalSize := p.2.2.1
      format := p.2.2.2.1
      shopifyAssetId := "gid://shopify/ProductImage/" ++ toString (2000000 + p.1)
      shopifyProductId := none }

/-- `fetchShopifyProducts` from `src/Shopimage/server/routes.ts` lines 40-91:
uses the per-shop token with the process-wide token as fallback, and returns
the mock catalog when no token is available, on a non-ok response, on a
network error, or when the fetched result set contains zero images. -/
def fetchShopifyProducts (shopAccessToken envToken : Option String)
    (net : HttpOutcome (List ShopifyProduct)) (domain : String) : List FetchedImage :=
  let accessToken := jsOrStr shopAccessToken envToken
  if truthyStr accessToken = false then generateMockImages domain
  else
    match net with
    | HttpOutcome.networkError => generateMockImages domain
    | HttpOutcome.response ok products =>
      if ok = false then generateMockImages domain
      else
        let allImages := fetchedImagesOfProducts true products
        if 0 < allImages.length then allImages else generateMockImages domain

end ShopimageRoutes

/-! ## part_001 scan pipeline -/

/-- The fields of the `ScanResult` that the claims are about
(`potentialTimeSaved` is a floating-point estimate not modelled here). -/
structure ScanOutput where
  images : List ImageLog
  totalHeavyImages : Nat
  grade : String
deriving Repr, DecidableEq

namespace RoutesV1

/-- Inserting one `ImageLog` row per fetched image, in fetch order, with ids
`img_<counter>`, `img_<counter+1>`, ... (the scan loop of part_001 lines
257-272 composed with `MemoryStorage.createImageLog`). -/
def imageLogsOfFetch (shopId : String) (counter now : Nat) :
    List FetchedImage → List ImageLog
  | [] => []
  | f :: fs =>
    scanCreatedLog ("img_" ++ toString counter) shopId f now ::
      imageLogsOfFetch shopId (counter + 1) now fs

/-- Insert into a list already sorted by strictly descending `originalSize`. -/
def insertBySizeDesc (x : ImageLog) : List ImageLog → List ImageLog
  | [] => [x]
  | y :: ys =>
    if y.originalSize < x.originalSize then x :: y :: ys
    else y :: insertBySizeDesc x ys

/-- Model of `heavyImages.sort((a, b) => b.originalSize - a.originalSize)`:
sorting by descending `originalSize`.  (For every input the claims evaluate
this on, the sizes are pairwise distinct, so any correct sort produces the
same list as the JavaScript engine's.) -/
def sortBySizeDesc : List ImageLog → List ImageLog
  | [] => []
  | x :: xs => insertBySizeDesc x (sortBySizeDesc xs)

/-- The result assembly of the part_001 scan handler (lines 274-288): the
heavy subset (`originalSize > 500 * 1024`), its total byte volume, the grade
from `calculateGrade(heavyImages.length, totalSize)` and the heavy subset
sorted by descending size. -/
def scanAssemble (images : List ImageLog) : ScanOutput :=
  let heavyImages := images.filter (fun img => img.originalSize > 500 * 1024)
  let totalSize := (heavyImages.map (fun img => img.originalSize)).sum
  { images := sortBySizeDesc heavyImages
    totalHeavyImages := heavyImages.length
    grade := calculateGrade heavyImages.length totalSize }

/-- The image-log rows the part_001 scan handler creates for a domain in
demo mode (no process-wide access token configured). -/
def scanMockLogs (domain shopId : String) (counter now : Nat)
    (net : HttpOutcome (List ShopifyProduct)) : List ImageLog :=
  imageLogsOfFetch shopId counter now (fetchShopifyProducts none net domain)

/-- The `ScanResult` fields the part_001 scan handler returns in demo mode. -/
def scanMockOutput (domain shopId : String) (counter now : Nat)
    (net : HttpOutcome (List ShopifyProduct)) : ScanOutput :=
  scanAssemble (scanMockLogs domain shopId counter now net)

end RoutesV1

/-- C3 (amended): the part_001 grade function agrees with the spec's
threshold table (including the "F" row) at every input, and the part_001 scan
assembly computes its grade by applying that function to the heavy-image
count and the total heavy byte volume (and reports that count as
`totalHeavyImages`).  The `src/Shopimage/server/routes.ts` revision deviates
on both points (see the counterexample theorem). -/
theorem grade_table_and_scan_wiring (h s : Nat) (images : List ImageLog) :
    RoutesV1.calculateGrade h s = specGradeTable h s ∧
    (RoutesV1.scanAssemble images).grade =
      RoutesV1.calculateGrade
        (images.filter (fun img => img.originalSize > 500 * 1024)).length
        ((images.filter (fun img => img.originalSize > 500 * 1024)).map
          (fun img => img.originalSize)).sum ∧
    (RoutesV1.scanAssemble images).totalHeavyImages =
      (images.filter (fun img => img.originalSize > 500 * 1024)).length :=
  ⟨calculateGrade_v1_eq_table h s, rfl, rfl⟩

/-- The demo-mode fetch ignores both the network outcome and the domain:
for every domain and network outcome it returns the same term as the
concrete scenario instance. -/
lemma fetch_demo_irrelevant (domain : String)
    (net : HttpOutcome (List ShopifyProduct)) :
    RoutesV1.fetchShopifyProducts none net domain =
      RoutesV1.fetchShopifyProducts none HttpOutcome.networkError
        "my-store.myshopify.com" := rfl

/-- C7: scanning any domain with no access token configured (demo mode, a
fresh store so the created rows get ids `img_1`..`img_10` for shop `shop_1`)
returns one pending `ImageLog` per entry of the fixed 10-image mock catalog,
with exactly the catalog's names and sizes; every catalog image exceeds the
500 KB heavy threshold, so `totalHeavyImages = 10` equals the number of
created rows whose `originalSize` exceeds the threshold; the result's image
list is the heavy subset sorted strictly descending by `originalSize`; and
the grade is the threshold table's value "D" at (10 heavy, 20656946 heavy
bytes). -/
theorem scan_mock_scenario (domain : String)
    (net : HttpOutcome (List ShopifyProduct)) :
    (RoutesV1.scanMockLogs domain "shop_1" 1 0 net).length =
      (RoutesV1.generateMockImages domain).length ∧
    (RoutesV1.scanMockLogs domain "shop_1" 1 0 net).map
        (fun l => (l.imageName, l.originalSize, l.status)) =
      [("product_hero_1.jpg", 2621440, "pending"),
       ("collection_banner.png", 3145728, "pending"),
       ("product_detail_2.jpg", 1887436, "pending"),
       ("lifestyle_shot_3.png", 2359296, "pending"),
       ("product_zoom_4.jpg", 1572864, "pending"),
       ("hero_banner.png", 4194304, "pending"),
       ("category_thumb_5.jpg", 1048576, "pending"),
       ("product_variant_6.jpg", 943718, "pending"),
       ("promotional_banner.png", 2097152, "pending"),
       ("feature_image_7.jpg", 786432, "pending")] ∧
    (RoutesV1.scanMockOutput domain "shop_1" 1 0 net).totalHeavyImages = 10 ∧
    (RoutesV1.scanMockOutput domain "shop_1" 1 0 net).totalHeavyImages =
      ((RoutesV1.scanMockLogs domain "shop_1" 1 0 net).filter
        (fun l => l.originalSize > 500 * 1024)).length ∧
    (RoutesV1.scanMockOutput domain "shop_1" 1 0 net).images.map
        (fun l => l.originalSize) =
      [4194304, 3145728, 2621440, 2359296, 2097152,
       1887436, 1572864, 1048576, 943718, 786432] ∧
    List.Pairwise (fun a b => a > b)
      ((RoutesV1.scanMockOutput domain "shop_1" 1 0 net).images.map
        (fun l => l.originalSize)) ∧
    (RoutesV1.scanMockOutput domain "shop_1" 1 0 net).grade =
      specGradeTable 10 20656946 ∧
    (RoutesV1.scanMockOutput domain "shop_1" 1 0 net).grade = "D" := by
  have hlen : (RoutesV1.generateMockImages domain).length = 10 := rfl
  unfold RoutesV1.scanMockOutput RoutesV1.scanMockLogs
  rw [fetch_demo_irrelevant domain net, hlen]
  exact ⟨rfl, rfl, rfl, rfl, rfl, by decide, rfl, rfl⟩

/-- C6: `fetchShopifyProducts` (the `src/Shopimage/server/routes.ts`
revision) returns the fixed deterministic mock catalog in every fallback
case — when no access token is available (neither per-shop nor process-wide),
on a network error, on a non-success HTTP status, and when the fetched result
set contains zero images — and the catalog is non-empty (6 entries) and
identical across calls (it does not depend on the domain, the tokens or the
network outcome). -/
theorem fetch_falls_back_to_mock (domain : String)
    (shopTok envTok : Option String) (net : HttpOutcome (List ShopifyProduct)) :
    (truthyStr (jsOrStr shopTok envTok) = false →
      ShopimageRoutes.fetchShopifyProducts shopTok envTok net domain =
        ShopimageRoutes.generateMockImages domain) ∧
    (ShopimageRoutes.fetchShopifyProducts shopTok envTok
        HttpOutcome.networkError domain =
      ShopimageRoutes.generateMockImages domain) ∧
    (∀ body, ShopimageRoutes.fetchShopifyProducts shopTok envTok
        (HttpOutcome.response false body) domain =
      ShopimageRoutes.generateMockImages domain) ∧
    (∀ products, fetchedImagesOfProducts true products = [] →
      ShopimageRoutes.fetchShopifyProducts shopTok envTok
          (HttpOutcome.response true products) domain =
        ShopimageRoutes.generateMockImages domain) ∧
    (∀ d2, ShopimageRoutes.generateMockImages domain =
      ShopimageRoutes.generateMockImages d2) ∧
    (ShopimageRoutes.generateMockImages domain).length = 6 ∧
    ShopimageRoutes.generateMockImages domain ≠ [] := by
  have h6 : (ShopimageRoutes.generateMockImages domain).length = 6 := rfl
  refine ⟨?_, ?_, ?_, ?_, fun d2 => rfl, h6, ?_⟩
  · intro htok
    simp [ShopimageRoutes.fetchShopifyProducts, htok]
  · by_cases htok : truthyStr (jsOrStr shopTok envTok) = false <;>
      simp [ShopimageRoutes.fetchShopifyProducts, htok]
  · intro body
    by_cases htok : truthyStr (jsOrStr shopTok envTok) = false <;>
      simp [ShopimageRoutes.fetchShopifyProducts, htok]
  · intro products hempty
    by_cases htok : truthyStr (jsOrStr shopTok envTok) = false <;>
      simp [ShopimageRoutes.fetchShopifyProducts, htok, hempty]
  · intro hnil
    rw [hnil] at h6
    simp at h6

/-- Witness for C6: the no-token and network-error fallback cases evaluated
at a concrete domain give exactly the 6-entry mock catalog. -/
theorem fetch_falls_back_to_mock_witness :
    ShopimageRoutes.fetchShopifyProducts none none HttpOutcome.networkError
        "my-store.myshopify.com" =
      ShopimageRoutes.generateMockImages "my-store.myshopify.com" ∧
    ShopimageRoutes.fetchShopifyProducts none none
        (HttpOutcome.response true []) "my-store.myshopify.com" =
      ShopimageRoutes.generateMockImages "my-store.myshopify.com" ∧
    (ShopimageRoutes.generateMockImages "my-store.myshopify.com").length = 6 :=
  ⟨(fetch_falls_back_to_mock "my-store.myshopify.com" none none
      HttpOutcome.networkError).1 (by decide),
   (fetch_falls_back_to_mock "my-store.myshopify.com" none none
      HttpOutcome.networkError).2.2.2.1 [] rfl,
   (fetch_falls_back_to_mock "my-store.myshopify.com" none none
      HttpOutcome.networkError).2.2.2.2.2.1⟩

/-! ## Shopimage sync endpoint (C9) -/

namespace ShopimageRoutes

/-- `POST /api/images/:id/sync` (`src/Shopimage/server/routes.ts` lines
351-380): 404 on unknown id, 400 unless the row's status is `"optimized"`.
Only after that guard does the handler look up the shop, choose demo vs live
mode and possibly PUT to the Shopify product-image endpoint; that remainder
is abstracted by the continuation `rest`, so the guard theorem holds for
every possible remainder.  The result is (HTTP status, resulting store,
whether an outbound Shopify call was attempted). -/
def syncHandler (rest : ImageLog → Mem.ImageStore → Nat × Mem.ImageStore × Bool)
    (st : Mem.ImageStore) (id : String) : Nat × Mem.ImageStore × Bool :=
  match Mem.getImageLogById st id with
  | none => (404, st, false)
  | some imageLog =>
    if imageLog.status != "optimized" then (400, st, false)
    else rest imageLog st

end ShopimageRoutes

/-- C9: for every stored `ImageLog` whose status is not `"optimized"`
(e.g. `"pending"`), a sync request for its id returns HTTP 400, attempts no
outbound call to the Shopify product-image endpoint, and leaves the store
(hence the row's sync state) unchanged — regardless of what the rest of the
handler would do. -/
theorem sync_rejects_unoptimized
    (rest : ImageLog → Mem.ImageStore → Nat × Mem.ImageStore × Bool)
    (st : Mem.ImageStore) (id : String) (log : ImageLog)
    (hfound : Mem.getImageLogById st id = some log)
    (hstat : log.status ≠ "optimized") :
    ShopimageRoutes.syncHandler rest st id = (400, st, false) := by
  unfold ShopimageRoutes.syncHandler
  rw [hfound]
  simp [hstat]

/-- Witness for C9: a store holding one pending row; sync returns 400 with
the store unchanged and no upstream call, for an arbitrary continuation. -/
theorem sync_rejects_unoptimized_witness :
    ShopimageRoutes.syncHandler (fun _ s => (200, s, true)) c1Store0 "img_1" =
      (400, c1Store0, false) :=
  sync_rejects_unoptimized (fun _ s => (200, s, true)) c1Store0 "img_1"
    (RoutesV1.scanCreatedLog "img_1" "shop_1" c1Fetched 1) rfl (by decide)

/-! ## OAuth handlers (`src/server/shopify.ts`) -/

namespace Oauth

/-- A character matching the regex class `[a-zA-Z0-9]` (ASCII only, as
JavaScript regex without the unicode-insensitive flags). -/
def isAlnumAscii (c : Char) : Bool :=
  (('a' ≤ c && c ≤ 'z') || ('A' ≤ c && c ≤ 'Z') || ('0' ≤ c && c ≤ '9'))

/-- The prefix part `[a-zA-Z0-9][a-zA-Z0-9-]*` of the shop-domain regex. -/
def shopLabelOk : List Char → Bool
  | [] => false
  | c :: rest => isAlnumAscii c && rest.all (fun d => isAlnumAscii d || d == '-')

/-- `validateShopDomain` (`src/server/shopify.ts` lines 38-41): the anchored
regex `^[a-zA-Z0-9][a-zA-Z0-9-]*\.myshopify\.com$`.  Since the label may not
contain a dot, matching is equivalent to splitting off the literal
`.myshopify.com` suffix and checking the label. -/
def validateShopDomain (shop : String) : Bool :=
  let cs := shop.toList
  let suffix := ".myshopify.com".toList
  decide (suffix.length + 1 ≤ cs.length) &&
  decide (cs.drop (cs.length - suffix.length) = suffix) &&
  shopLabelOk (cs.take (cs.length - suffix.length))

/-- The environment the OAuth handlers read at module load. -/
structure OAuthEnv where
  apiKey : Option String
  apiSecret : Option String
  baseUrl : String

/-- The token payload of a successful `POST /admin/oauth/access_token`. -/
structure TokenData where
  access_token : String
  scope : String
deriving Repr, DecidableEq

/-- The query parameters of the callback request that the handler reads. -/
structure CallbackQuery where
  shop : Option String
  code : Option String
  state : Option String
  timestamp : Option String
  hmac : Option String

/-- The storage interface (`IStorage`) as used by the OAuth handlers, over an
abstract store type: the handlers are written against this interface and the
concrete backend is chosen at process start. -/
structure StorageOps (σ : Type) where
  getShopByDomain : σ → String → Option Shop
  createShop : σ → InsertShop → Nat → Shop × σ
  updateShopToken : σ → String → String → String → σ

/-- The handler's externally visible response. -/
inductive CallbackResp
  | badRequest (msg : String)
  | serverError (msg : String)
  | redirectInstalled (shop : String)
deriving Repr, DecidableEq

/-- Result of a callback: response, resulting store, and whether the
token-exchange POST to the shop's token endpoint was attempted. -/
structure CallbackOutcome (σ : Type) where
  resp : CallbackResp
  store : σ
  tokenExchangeAttempted : Bool

/-- `handleCallback` (`src/server/shopify.ts` lines 141-217).  The nonce,
timestamp and HMAC validations are commented out in the source, so the
handler goes straight from the shop-domain check to the credential check and
token exchange; the exchange itself (a POST built from the shop and code) is
modelled by the oracle `exchange`. -/
def handleCallback {σ : Type} (S : StorageOps σ) (env : OAuthEnv)
    (exchange : String → String → Option TokenData) (st : σ) (now : Nat)
    (q : CallbackQuery) : CallbackOutcome σ :=
  if !(truthyStr q.shop && truthyStr q.code && truthyStr q.state) then
    ⟨CallbackResp.badRequest "Missing required parameters", st, false⟩
  else
    let shop := q.shop.getD ""
    let code := q.code.getD ""
    if validateShopDomain shop = false then
      ⟨CallbackResp.badRequest "Invalid shop domain", st, false⟩
    else if !(truthyStr env.apiKey && truthyStr env.apiSecret) then
      ⟨CallbackResp.serverError "Shopify credentials not configured", st, false⟩
    else
      match exchange shop code with
      | none => ⟨CallbackResp.serverError "Failed to get access token", st, true⟩
      | some tokenData =>
        match S.getShopByDomain st shop with
        | some existingShop =>
          ⟨CallbackResp.redirectInstalled shop,
            S.updateShopToken st existingShop.id tokenData.access_token tokenData.scope,
            true⟩
        | none =>
          ⟨CallbackResp.redirectInstalled shop,
            (S.createShop st
              { domain := shop
                accessToken := some tokenData.access_token
                scope := some tokenData.scope
                lastScanAt := none } now).2,
            true⟩

end Oauth

namespace Oauth

/-- Response of `getShopSession` (`src/server/shopify.ts` lines 219-250). -/
inductive SessionResp
  | badRequest (msg : String)
  | notInstalled (installUrl : String)
  | ok (shop : String) (isPro : Bool)
deriving Repr, DecidableEq

/-- `getShopSession`: 400 on missing/invalid shop, 401 with an install URL
when no shop row exists or the stored row has no (truthy) access token, else
the session summary. -/
def getShopSession {σ : Type} (S : StorageOps σ) (env : OAuthEnv) (st : σ)
    (shop : Option String) : SessionResp :=
  if truthyStr shop = false then SessionResp.badRequest "Missing shop parameter"
  else
    let shopS := shop.getD ""
    if validateShopDomain shopS = false then
      SessionResp.badRequest "Invalid shop domain"
    else
      match S.getShopByDomain st shopS with
      | none =>
        SessionResp.notInstalled (env.baseUrl ++ "/api/shopify/install?shop=" ++ shopS)
      | some shopData =>
        if truthyStr shopData.accessToken = false then
          SessionResp.notInstalled (env.baseUrl ++ "/api/shopify/install?shop=" ++ shopS)
        else SessionResp.ok shopData.domain (shopData.isPro == 1)

/-- Whether a callback response is an HTTP 400. -/
def respIs400 : CallbackResp → Bool
  | CallbackResp.badRequest _ => true
  | _ => false

end Oauth

namespace Mem

/-- The shop half of `MemoryStorage` (part_005): the shop map in insertion
order plus the id counter. -/
structure ShopStore where
  shops : List Shop
  shopIdCounter : Nat
deriving Repr, DecidableEq

/-- `MemoryStorage.getShopByDomain`: linear scan in insertion order. -/
def getShopByDomain (st : ShopStore) (domain : String) : Option Shop :=
  st.shops.find? (fun s => s.domain == domain)

/-- `MemoryStorage.createShop` (part_005 lines 30-43): note the stored row
gets `accessToken: null`, `scope: null`, `isPro: 0` regardless of the insert
payload. -/
def createShop (st : ShopStore) (ins : InsertShop) (now : Nat) : Shop × ShopStore :=
  let id := "shop_" ++ toString st.shopIdCounter
  let newShop : Shop :=
    { id := id
      domain := ins.domain
      accessToken := none
      scope := none
      isPro := 0
      lastScanAt := ins.lastScanAt
      createdAt := now }
  (newShop, { shops := st.shops ++ [newShop], shopIdCounter := st.shopIdCounter + 1 })

/-- `MemoryStorage.updateShopToken`. -/
def updateShopToken (st : ShopStore) (id accessToken scope : String) : ShopStore :=
  { st with
    shops := st.shops.map (fun s =>
      if s.id == id then { s with accessToken := some accessToken, scope := some scope }
      else s) }

/-- The in-memory backend packaged as the storage interface. -/
def shopOps : Oauth.StorageOps ShopStore :=
  { getShopByDomain := getShopByDomain
    createShop := createShop
    updateShopToken := updateShopToken }

end Mem

/-- `find?` skips a prefix in which nothing matches. -/
lemma find?_append_left_none {α : Type} (p : α → Bool) :
    ∀ (l1 l2 : List α), l1.find? p = none → (l1 ++ l2).find? p = l2.find? p
  | [], _, _ => rfl
  | a :: l1, l2, h => by
    simp only [List.find?, List.cons_append]
    cases hpa : p a with
    | true =>
      simp only [List.find?, hpa] at h
      exact Option.noConfusion h
    | false =>
      simp only [List.find?, hpa] at h
      exact find?_append_left_none p l1 l2 h

/-- C8: for every callback request whose shop parameter does not match the
`^[a-zA-Z0-9][a-zA-Z0-9-]*\.myshopify\.com$` pattern, the handler answers
HTTP 400, attempts no token exchange and returns the shop store unchanged
(no row created or updated) — over any storage backend. -/
theorem callback_invalid_shop_rejected {σ : Type} (S : Oauth.StorageOps σ)
    (env : Oauth.OAuthEnv) (exchange : String → String → Option Oauth.TokenData)
    (st : σ) (now : Nat) (q : Oauth.CallbackQuery) (shop : String)
    (hshop : q.shop = some shop)
    (hinvalid : Oauth.validateShopDomain shop = false) :
    Oauth.respIs400 (Oauth.handleCallback S env exchange st now q).resp = true ∧
    (Oauth.handleCallback S env exchange st now q).store = st ∧
    (Oauth.handleCallback S env exchange st now q).tokenExchangeAttempted = false := by
  unfold Oauth.handleCallback
  by_cases hmiss : (truthyStr q.shop && truthyStr q.code && truthyStr q.state) = true
  · rw [hshop] at hmiss ⊢
    simp only [hmiss, Bool.not_true, Bool.false_eq_true, if_false, Option.getD_some]
    simp [hinvalid, Oauth.respIs400]
  · simp only [Bool.not_eq_true] at hmiss
    simp [hmiss, Oauth.respIs400]

/-- Witness for C8: the callback with `shop = "not-a-shop"` (and present
code/state) over the in-memory backend answers 400 and leaves the empty
store untouched. -/
theorem callback_invalid_shop_rejected_witness :
    Oauth.respIs400 (Oauth.handleCallback Mem.shopOps
        ⟨some "key", some "secret", "https://app.example.com"⟩
        (fun _ _ => some ⟨"tok", "read_products"⟩) ⟨[], 1⟩ 0
        ⟨some "not-a-shop", some "c", some "s", none, none⟩).resp = true ∧
    (Oauth.handleCallback Mem.shopOps
        ⟨some "key", some "secret", "https://app.example.com"⟩
        (fun _ _ => some ⟨"tok", "read_products"⟩) ⟨[], 1⟩ 0
        ⟨some "not-a-shop", some "c", some "s", none, none⟩).store = ⟨[], 1⟩ ∧
    (Oauth.handleCallback Mem.shopOps
        ⟨some "key", some "secret", "https://app.example.com"⟩
        (fun _ _ => some ⟨"tok", "read_products"⟩) ⟨[], 1⟩ 0
        ⟨some "not-a-shop", some "c", some "s", none, none⟩).tokenExchangeAttempted =
      false :=
  callback_invalid_shop_rejected Mem.shopOps _ _ _ _ _ "not-a-shop" rfl (by decide)

/-- C2: for every callback request with present, non-empty shop/code/state
and a shop matching the myshopify.com pattern, the handler reaches the token
exchange and shop upsert without invoking `validateNonce`, `verifyTimestamp`
or `verifyHmac`: any two such requests differing only in the values of
`state`, `timestamp` and `hmac` produce identical outcomes (same response,
same store, same exchange behaviour), and with credentials configured the
token exchange is attempted and a successful exchange ends in the
installed redirect (having performed the upsert). -/
theorem callback_verification_disabled {σ : Type} (S : Oauth.StorageOps σ)
    (env : Oauth.OAuthEnv) (exchange : String → String → Option Oauth.TokenData)
    (st : σ) (now : Nat) (shop code state1 state2 : String)
    (ts1 ts2 hm1 hm2 : Option String)
    (hshop : shop ≠ "") (hcode : code ≠ "")
    (hst1 : state1 ≠ "") (hst2 : state2 ≠ "")
    (hvalid : Oauth.validateShopDomain shop = true) :
    Oauth.handleCallback S env exchange st now
        ⟨some shop, some code, some state1, ts1, hm1⟩ =
      Oauth.handleCallback S env exchange st now
        ⟨some shop, some code, some state2, ts2, hm2⟩ ∧
    (truthyStr env.apiKey = true → truthyStr env.apiSecret = true →
      (Oauth.handleCallback S env exchange st now
          ⟨some shop, some code, some state1, ts1, hm1⟩).tokenExchangeAttempted =
        true ∧
      (∀ td, exchange shop code = some td →
        (Oauth.handleCallback S env exchange st now
            ⟨some shop, some code, some state1, ts1, hm1⟩).resp =
          Oauth.CallbackResp.redirectInstalled shop)) := by
  have h1 : truthyStr (some shop) = true := by simp [truthyStr, hshop]
  have h2 : truthyStr (some code) = true := by simp [truthyStr, hcode]
  have h3 : truthyStr (some state1) = true := by simp [truthyStr, hst1]
  have h4 : truthyStr (some state2) = true := by simp [truthyStr, hst2]
  refine ⟨?_, ?_⟩
  · simp only [Oauth.handleCallback, h1, h2, h3, h4]
  · intro hkey hsec
    constructor
    · simp only [Oauth.handleCallback, h1, h2, h3, hkey, hsec, hvalid,
        Bool.and_self, Bool.not_true, Bool.false_eq_true, if_false,
        Option.getD_some, Bool.and_true, Bool.true_and]
      cases hex : exchange shop code with
      | none => rfl
      | some td => cases S.getShopByDomain st shop <;> rfl
    · intro td hex
      simp only [Oauth.handleCallback, h1, h2, h3, hkey, hsec, hvalid,
        Bool.and_self, Bool.not_true, Bool.false_eq_true, if_false,
        Option.getD_some, Bool.and_true, Bool.true_and, hex]
      cases S.getShopByDomain st shop <;> rfl

/-- Witness for C2: two concrete callback requests differing in state,
timestamp and hmac produce the same outcome over the in-memory backend, the
exchange is attempted, and the successful exchange redirects installed. -/
theorem callback_verification_disabled_witness :
    Oauth.handleCallback Mem.shopOps
        ⟨some "key", some "secret", "https://app.example.com"⟩
        (fun _ _ => some ⟨"tok", "read_products"⟩) ⟨[], 1⟩ 0
        ⟨some "my-store.myshopify.com", some "c", some "state-a",
          some "111", some "aaa"⟩ =
      Oauth.handleCallback Mem.shopOps
        ⟨some "key", some "secret", "https://app.example.com"⟩
        (fun _ _ => some ⟨"tok", "read_products"⟩) ⟨[], 1⟩ 0
        ⟨some "my-store.myshopify.com", some "c", some "state-b",
          some "222", some "bbb"⟩ ∧
    (Oauth.handleCallback Mem.shopOps
        ⟨some "key", some "secret", "https://app.example.com"⟩
        (fun _ _ => some ⟨"tok", "read_products"⟩) ⟨[], 1⟩ 0
        ⟨some "my-store.myshopify.com", some "c", some "state-a",
          some "111", some "aaa"⟩).tokenExchangeAttempted = true ∧
    (Oauth.handleCallback Mem.shopOps
        ⟨some "key", some "secret", "https://app.example.com"⟩
        (fun _ _ => some ⟨"tok", "read_products"⟩) ⟨[], 1⟩ 0
        ⟨some "my-store.myshopify.com", some "c", some "state-a",
          some "111", some "aaa"⟩).resp =
      Oauth.CallbackResp.redirectInstalled "my-store.myshopify.com" := by
  have h := callback_verification_disabled Mem.shopOps
    ⟨some "key", some "secret", "https://app.example.com"⟩
    (fun _ _ => some ⟨"tok", "read_products"⟩) ⟨[], 1⟩ 0
    "my-store.myshopify.com" "c" "state-a" "state-b"
    (some "111") (some "222") (some "aaa") (some "bbb")
    (by decide) (by decide) (by decide) (by decide) (by decide)
  exact ⟨h.1, (h.2 rfl rfl).1, (h.2 rfl rfl).2 ⟨"tok", "read_products"⟩ rfl⟩

/-- Witness for C5: fix on the already-optimized row of `c1Store1` and revert
on the pending row of `c1Store0` both answer 400 and leave the store as it
was. -/
theorem fix_revert_state_conflicts_witness :
    RoutesV1.fixHandler c1Store1 "img_1" 7 = (400, c1Store1) ∧
    RoutesV1.revertHandler c1Store0 "img_1" 7 = (400, c1Store0) :=
  ⟨(fix_revert_state_conflicts c1Store1 "img_1"
      (Mem.updateImageLogStatus
        (RoutesV1.scanCreatedLog "img_1" "shop_1" c1Fetched 1)
        "optimized" (some 400000) 5) 7 rfl).1 rfl,
   (fix_revert_state_conflicts c1Store0 "img_1"
      (RoutesV1.scanCreatedLog "img_1" "shop_1" c1Fetched 1) 7 rfl).2 rfl⟩

/-- C10: `MemoryStorage.createShop` stores `accessToken = null`,
`scope = null` and `isPro = 0` regardless of the insert payload; hence an
OAuth callback that creates a new shop over the in-memory backend redirects
with `installed=true` while persisting no token, and the subsequent session
check for that shop answers 401 not-installed with an install URL. -/
theorem memory_callback_loses_token (env : Oauth.OAuthEnv)
    (exchange : String → String → Option Oauth.TokenData)
    (st : Mem.ShopStore) (now : Nat) (shop code state : String)
    (ts hm : Option String)
    (hshop : shop ≠ "") (hcode : code ≠ "") (hstate : state ≠ "")
    (hvalid : Oauth.validateShopDomain shop = true)
    (hkey : truthyStr env.apiKey = true) (hsec : truthyStr env.apiSecret = true)
    (td : Oauth.TokenData) (hex : exchange shop code = some td)
    (hfresh : Mem.getShopByDomain st shop = none) :
    (∀ (st2 : Mem.ShopStore) (ins : InsertShop) (now2 : Nat),
      (Mem.createShop st2 ins now2).1.accessToken = none ∧
      (Mem.createShop st2 ins now2).1.scope = none ∧
      (Mem.createShop st2 ins now2).1.isPro = 0) ∧
    (Oauth.handleCallback Mem.shopOps env exchange st now
        ⟨some shop, some code, some state, ts, hm⟩).resp =
      Oauth.CallbackResp.redirectInstalled shop ∧
    Oauth.getShopSession Mem.shopOps env
        (Oauth.handleCallback Mem.shopOps env exchange st now
          ⟨some shop, some code, some state, ts, hm⟩).store (some shop) =
      Oauth.SessionResp.notInstalled
        (env.baseUrl ++ "/api/shopify/install?shop=" ++ shop) := by
  have h1 : truthyStr (some shop) = true := by simp [truthyStr, hshop]
  have h2 : truthyStr (some code) = true := by simp [truthyStr, hcode]
  have h3 : truthyStr (some state) = true := by simp [truthyStr, hstate]
  have hout : Oauth.handleCallback Mem.shopOps env exchange st now
      ⟨some shop, some code, some state, ts, hm⟩ =
      ⟨Oauth.CallbackResp.redirectInstalled shop,
        (Mem.createShop st
          { domain := shop
            accessToken := some td.access_token
            scope := some td.scope
            lastScanAt := none } now).2,
        true⟩ := by
    simp only [Oauth.handleCallback, h1, h2, h3, hkey, hsec, hvalid,
      Bool.and_self, Bool.not_true, Bool.false_eq_true, if_false,
      Option.getD_some, Bool.and_true, Bool.true_and, hex, Mem.shopOps, hfresh]
    simp
  refine ⟨fun st2 ins now2 => ⟨rfl, rfl, rfl⟩, ?_, ?_⟩
  · rw [hout]
  · rw [hout]
    unfold Mem.getShopByDomain at hfresh
    have hfind : Mem.getShopByDomain
        (Mem.createShop st
          { domain := shop
            accessToken := some td.access_token
            scope := some td.scope
            lastScanAt := none } now).2 shop =
        some ((Mem.createShop st
          { domain := shop
            accessToken := some td.access_token
            scope := some td.scope
            lastScanAt := none } now).1) := by
      unfold Mem.getShopByDomain Mem.createShop
      rw [find?_append_left_none _ _ _ hfresh]
      simp [List.find?]
    simp only [Oauth.getShopSession, h1, hvalid, Bool.false_eq_true, if_false,
      Option.getD_some, Mem.shopOps, hfind]
    simp [Mem.createShop, truthyStr]

/-- Witness for C10 at a fresh in-memory store and a concrete shop. -/
theorem memory_callback_loses_token_witness :
    (∀ (st2 : Mem.ShopStore) (ins : InsertShop) (now2 : Nat),
      (Mem.createShop st2 ins now2).1.accessToken = none ∧
      (Mem.createShop st2 ins now2).1.scope = none ∧
      (Mem.createShop st2 ins now2).1.isPro = 0) ∧
    (Oauth.handleCallback Mem.shopOps
        ⟨some "key", some "secret", "https://app.example.com"⟩
        (fun _ _ => some ⟨"tok", "read_products"⟩) ⟨[], 1⟩ 0
        ⟨some "my-store.myshopify.com", some "c", some "s", none, none⟩).resp =
      Oauth.CallbackResp.redirectInstalled "my-store.myshopify.com" ∧
    Oauth.getShopSession Mem.shopOps
        ⟨some "key", some "secret", "https://app.example.com"⟩
        (Oauth.handleCallback Mem.shopOps
          ⟨some "key", some "secret", "https://app.example.com"⟩
          (fun _ _ => some ⟨"tok", "read_products"⟩) ⟨[], 1⟩ 0
          ⟨some "my-store.myshopify.com", some "c", some "s", none, none⟩).store
        (some "my-store.myshopify.com") =
      Oauth.SessionResp.notInstalled
        ("https://app.example.com" ++ "/api/shopify/install?shop=" ++
          "my-store.myshopify.com") :=
  memory_callback_loses_token
    ⟨some "key", some "secret", "https://app.example.com"⟩
    (fun _ _ => some ⟨"tok", "read_products"⟩) ⟨[], 1⟩ 0
    "my-store.myshopify.com" "c" "s" none none
    (by decide) (by decide) (by decide) (by decide) rfl rfl
    ⟨"tok", "read_products"⟩ rfl rfl

/-! ## Shopimage fix endpoint (C5 counterexample) -/

/-- `Math.round(n * 0.25)` for a non-negative integer `n` (the size-ratio
fallback of the Shopimage fix handler).  `0.25` is exactly representable in
binary floating point, so half-up rounding of `n / 4` is exact. -/
def jsRoundQuarter (n : Nat) : Nat :=
  (n + 2) / 4

namespace ShopimageRoutes

/-- `POST /api/images/:id/fix` (`src/Shopimage/server/routes.ts` lines
282-348): 404 on unknown id; otherwise — with NO already-optimized guard —
the handler downloads and re-encodes the image and stores the result via
`updateImageLogStatus(id, "optimized", optimizedSize)`, answering 200.  The
encoder is a black box modelled by `enc`: `some n` is a successful encode
whose output buffer has `n` bytes; `none` is a download/Sharp failure, in
which case the handler falls back to
`optimizedSize = Math.round(originalSize * 0.25)` (still 200). -/
def fixHandler (enc : Option Nat) (st : Mem.ImageStore) (id : String)
    (now : Nat) : Nat × Mem.ImageStore :=
  match Mem.getImageLogById st id with
  | none => (404, st)
  | some imageLog =>
    let optimizedSize :=
      match enc with
      | some n => n
      | none => jsRoundQuarter imageLog.originalSize
    (200, Mem.updateImageLogStatusStore st id "optimized" (some optimizedSize) now)

end ShopimageRoutes

/-- C5 counterexample: the `src/Shopimage/server/routes.ts` fix handler — one
of the fix handlers the claim cites — has no already-optimized guard.
Applied (with the encoder failing, so the 0.25-ratio fallback) to the store
`c1Store1`, whose row `img_1` is already optimized with
`optimizedSize = 400000`, it answers 200, not 400, and overwrites
`optimizedSize` with `500000 = Math.round(2000000 * 0.25)`: the claim that a
fix request on an optimized row returns 400 and leaves `optimizedSize`
unchanged is false for this cited revision. -/
theorem shopimage_fix_reoptimizes_counterexample :
    (Mem.getImageLogById c1Store1 "img_1").map
        (fun l => (l.status, l.optimizedSize)) =
      some ("optimized", some 400000) ∧
    (ShopimageRoutes.fixHandler none c1Store1 "img_1" 9).1 = 200 ∧
    (ShopimageRoutes.fixHandler none c1Store1 "img_1" 9).1 ≠ 400 ∧
    (Mem.getImageLogById (ShopimageRoutes.fixHandler none c1Store1 "img_1" 9).2
        "img_1").map (fun l => (l.status, l.optimizedSize)) =
      some ("optimized", some 500000) := by
  exact ⟨rfl, rfl, by decide, rfl⟩
